import Mathlib

/-!
Verification of the cross-reference validator
(`fire/starlark/validate_cross_references.py`).

The Python source is shallowly embedded: each Python function becomes a
Lean definition of the same name (snake_case kept where Lean allows),
file I/O is modelled by an explicit filesystem record `FS`, Python
dictionaries become association lists with overwrite-or-append update
semantics, and the error strings appended by the validator become a
structured error type `VErr` whose constructors correspond one-to-one to
the `errors.append(...)` sites of the source (each constructor carries
the data interpolated into the corresponding f-string).
-/

/-! ## Python-style string primitives (over `List Char` / `String`) -/

/-- Characters stripped by Python `str.strip()` / counted as indentation. -/
def pySpace (c : Char) : Bool :=
  c == ' ' || c == '\t' || c == '\n' || c == '\r' || c == '\x0b' || c == '\x0c'

/-- Boolean prefix test on lists (used for Python `str.startswith`). -/
def lpre : List Char → List Char → Bool
  | [], _ => true
  | _ :: _, [] => false
  | a :: as, b :: bs => a == b && lpre as bs

/-- Python `s.startswith(t)`. -/
def pyStartsWith (s t : String) : Bool := lpre t.data s.data

/-- Python `s.endswith(t)`. -/
def pyEndsWith (s t : String) : Bool := lpre t.data.reverse s.data.reverse

/-- Python `s.strip()` (both ends). -/
def pyStrip (s : String) : String :=
  ⟨((s.data.dropWhile pySpace).reverse.dropWhile pySpace).reverse⟩

/-- Python `len(line) - len(line.lstrip())`: number of leading whitespace chars. -/
def indentOf (s : String) : Nat := (s.data.takeWhile pySpace).length

/-- Python `c in s` for a single character. -/
def pyContainsChar (s : String) (c : Char) : Bool := s.data.contains c

/-- Python `s.split(c, 1)`: the part before the first `c` and the part after it.
When `c` does not occur the second component is `""` (the source only reads it
under a containment guard or with a `len(parts) > 1 else ''` default). -/
def pySplitOnce (s : String) (c : Char) : String × String :=
  (⟨s.data.takeWhile (· ≠ c)⟩, ⟨(s.data.dropWhile (· ≠ c)).drop 1⟩)

/-- Python `s[1:]`. -/
def strTail (s : String) : String := ⟨s.data.drop 1⟩

/-- Split a character list on every occurrence of `c` (keeps empty pieces),
i.e. Python `str.split(c)`. -/
def splitCharsOn (c : Char) : List Char → List (List Char)
  | [] => [[]]
  | x :: xs =>
    let r := splitCharsOn c xs
    if x == c then [] :: r
    else
      match r with
      | [] => [[x]]
      | h :: t => (x :: h) :: t

/-- Python `content.split('\n')`. -/
def splitLines (s : String) : List String :=
  (splitCharsOn '\n' s.data).map (fun l => (⟨l⟩ : String))

/-- Python `s.split(c)` (full split). -/
def pySplitAll (s : String) (c : Char) : List String :=
  (splitCharsOn c s.data).map (fun l => (⟨l⟩ : String))

/-- Python `'\n'.join(lines)`. -/
def joinLines : List String → String
  | [] => ""
  | [x] => x
  | x :: y :: xs => x ++ "\n" ++ joinLines (y :: xs)

/-- Python `s.isdigit()` (ASCII digits, non-empty). -/
def pyIsDigit (s : String) : Bool := !s.data.isEmpty && s.data.all Char.isDigit

/-- Numeric value of a digit string, Python `int(s)` for `s.isdigit()`. -/
def pyToNat (s : String) : Nat :=
  s.data.foldl (fun n c => 10 * n + (c.toNat - '0'.toNat)) 0

/-- Python `s.lower()`. -/
def pyLower (s : String) : String := ⟨s.data.map Char.toLower⟩

/-- Python `os.path.basename`: the part after the last `/`. -/
def pyBasename (s : String) : String :=
  ⟨(s.data.reverse.takeWhile (· ≠ '/')).reverse⟩

/-- `potential_key.replace("_", "").replace("-", "").isalnum()` from the source. -/
def isAlnumKey (s : String) : Bool :=
  let t := s.data.filter (fun c => c ≠ '_' && c ≠ '-')
  !t.isEmpty && t.all Char.isAlphanum

/-- Substring test: is `n` a contiguous substring of `h` (Python `n in h`)? -/
def subMatch (n : List Char) : List Char → Bool
  | [] => n.isEmpty
  | c :: t => lpre n (c :: t) || subMatch n t

/-- Python `needle in hay` on strings. -/
def strContains (hay needle : String) : Bool := subMatch needle.data hay.data

/-- Python `os.path.join(a, b)` for the paths occurring here: an absolute `b`
wins; otherwise the parts are joined with exactly one `/`. -/
def osPathJoin (a b : String) : String :=
  if pyStartsWith b "/" then b
  else if a == "" then b
  else if pyEndsWith a "/" then a ++ b
  else a ++ "/" ++ b

/-- Truthiness of Python's `current_key and ...` on an optional string. -/
def pyTruthyStrOpt : Option String → Bool
  | some s => !s.data.isEmpty
  | none => false

/-! ## The metadata value tree

Shapes actually produced by the two parsers of the source:
list elements are strings or string-to-string dicts; values nested under a
top-level key are strings or lists; top-level values are strings, ints,
bools (ints/bools only from the inline-YAML parser) or one-level dicts. -/

/-- An element of a reference list: a plain string or a `{key: value}` dict. -/
inductive Item where
  | s (v : String)
  | d (m : List (String × String))
deriving DecidableEq, Repr

/-- A value nested under a top-level key: scalar string or list of items. -/
inductive Nested where
  | s (v : String)
  | l (xs : List Item)
deriving DecidableEq, Repr

/-- A top-level metadata value. -/
inductive TopVal where
  | s (v : String)
  | i (n : Nat)
  | b (v : Bool)
  | m (xs : List (String × Nested))
deriving DecidableEq, Repr

/-- A parsed metadata block: a Python dict as an insertion-ordered assoc list. -/
abbrev Frontmatter := List (String × TopVal)

/-- Python `d.get(k)` on an assoc list (keys are unique by construction). -/
def dget {α : Type} (m : List (String × α)) (k : String) : Option α :=
  (m.find? (fun p => p.1 == k)).map (·.2)

/-- Python `d[k] = v`: overwrite in place if present, append otherwise. -/
def dset {α : Type} (m : List (String × α)) (k : String) (v : α) : List (String × α) :=
  if m.any (fun p => p.1 == k) then m.map (fun p => if p.1 == k then (k, v) else p)
  else m ++ [(k, v)]

/-- Python `f"{value}"` for a metadata scalar (used only inside warnings). -/
def pyStr : TopVal → String
  | .s v => v
  | .i n => Nat.repr n
  | .b true => "True"
  | .b false => "False"
  | .m _ => "dict"

/-- Python `value == req_id` where `value` is a parsed scalar and `req_id` a
string; distinct Python types never compare equal. -/
def pyEqStr (v : TopVal) (s : String) : Bool :=
  match v with
  | .s w => w == s
  | _ => false

/-- Python `value == n` against an int `n` (`True == 1` and `False == 0`). -/
def pyEqNat (v : TopVal) (n : Nat) : Bool :=
  match v with
  | .i m => m == n
  | .b bv => (if bv then 1 else 0) == n
  | _ => false

/-! ## `parse_inline_yaml_for_requirement` (source lines 25-81) -/

/-- The line-collection loop of `parse_inline_yaml_for_requirement`: scan for a
`## REQ-ID` heading, then collect the lines of the first fenced `yaml` block in
that section (stopping at the closing fence or the next `## ` heading). -/
def collectYaml (req_id : String) : List String → Bool → Bool → List String
  | [], _, _ => []
  | line :: rest, inSec, inYaml =>
    if pyStartsWith line ("## " ++ req_id) then collectYaml req_id rest true inYaml
    else if inSec then
      if pyStartsWith line "## " then []
      else if pyStrip line == "```yaml" then collectYaml req_id rest true true
      else if inYaml then
        if pyStrip line == "```" then []
        else line :: collectYaml req_id rest true true
      else collectYaml req_id rest true inYaml
    else collectYaml req_id rest false inYaml

/-- One `key: value` line of the inline YAML block: digit-only values become
ints, `true`/`false` (case-insensitive) become bools, all else stays a string.
Blank lines, comment lines and lines without `:` are skipped. -/
def inlineYamlLine (fm : Frontmatter) (line : String) : Frontmatter :=
  let stripped := pyStrip line
  if stripped.data.isEmpty || pyStartsWith stripped "#" then fm
  else if pyContainsChar stripped ':' then
    let key := pyStrip (pySplitOnce stripped ':').1
    let value := pyStrip (pySplitOnce stripped ':').2
    if pyIsDigit value then dset fm key (.i (pyToNat value))
    else if pyLower value == "true" then dset fm key (.b true)
    else if pyLower value == "false" then dset fm key (.b false)
    else dset fm key (.s value)
  else fm

/-- `parse_inline_yaml_for_requirement(content, req_id)`: `none` when no yaml
lines were collected, otherwise a dict seeded with `id: req_id` and updated by
the collected `key: value` lines. -/
def parse_inline_yaml_for_requirement (content req_id : String) : Option Frontmatter :=
  let yaml_lines := collectYaml req_id (splitLines content) false false
  if yaml_lines.isEmpty then none
  else some (yaml_lines.foldl inlineYamlLine [("id", .s req_id)])

/-! ## `parse_frontmatter` (source lines 83-204) -/

/-- Where Python's `current_dict_item` reference lives: `attached k l` means it
is the last element of the list `frontmatter[k][l]` (the only case in which a
later mutation of it is observable); `detached` models a dict item that was
created but not appended because the append guard failed. -/
inductive CDI where
  | cnone
  | attached (k l : String)
  | detached
deriving DecidableEq, Repr

/-- The mutable cursor state of the `parse_frontmatter` loop. -/
structure PFState where
  fm : Frontmatter
  current_key : Option String
  current_list : Option String
  cdi : CDI
  base_indent : Nat
deriving DecidableEq, Repr

/-- The guard `current_key and current_list and isinstance(frontmatter[current_key], dict)`:
returns the pair of keys when it holds. -/
def condLoc (st : PFState) : Option (String × String) :=
  match st.current_key, st.current_list with
  | some ck, some cl =>
    if ck.data.isEmpty || cl.data.isEmpty then none
    else
      match dget st.fm ck with
      | some (.m _) => some (ck, cl)
      | _ => none
  | _, _ => none

/-- Append a list item to `frontmatter[ck][cl]`, creating the list if the key
is missing (the source's init-then-append). A scalar already stored under
`cl` is left unchanged (the source would raise there; no verified flow hits it). -/
def appendToList (fm : Frontmatter) (ck cl : String) (it : Item) : Frontmatter :=
  match dget fm ck with
  | some (.m xs) =>
    let xs' :=
      match dget xs cl with
      | some (.l ys) => dset xs cl (.l (ys ++ [it]))
      | some (.s _) => xs
      | none => dset xs cl (.l [it])
    dset fm ck (.m xs')
  | _ => fm

/-- Python `current_dict_item[key] = value` when the item is attached: update
the last element of `frontmatter[ck][cl]` (which is the dict that was appended). -/
def updateLastDict (fm : Frontmatter) (ck cl key value : String) : Frontmatter :=
  match dget fm ck with
  | some (.m xs) =>
    match dget xs cl with
    | some (.l ys) =>
      match ys.getLast? with
      | some (.d d) => dset fm ck (.m (dset xs cl (.l (ys.dropLast ++ [.d (dset d key value)]))))
      | _ => fm
    | _ => fm
  | _ => fm

/-- One iteration of the `parse_frontmatter` loop body (source lines 109-201)
for line index `i` of the block; `end_idx` is the index of the closing `---`. -/
def pfLine (lines : List String) (end_idx : Nat) (st : PFState) (i : Nat) : PFState :=
  let line := lines.getD i ""
  let stripped := pyStrip line
  if stripped.data.isEmpty || pyStartsWith stripped "#" then st
  else
    let indent := indentOf line
    if pyStartsWith stripped "-" then
      let rest := pyStrip (strTail stripped)
      let is_multiline_dict :=
        if i + 1 < end_idx then
          let next_line := lines.getD (i + 1) ""
          let next_stripped := pyStrip next_line
          if !next_stripped.data.isEmpty && !pyStartsWith next_stripped "-" then
            decide (indentOf next_line > indent) && pyContainsChar next_stripped ':'
          else false
        else false
      let is_dict_item :=
        if pyContainsChar rest ':' && !pyStartsWith rest "//" && !pyStartsWith rest "ISO " then
          isAlnumKey (pyStrip (pySplitOnce rest ':').1)
        else false
      if is_dict_item then
        let dict_key := pyStrip (pySplitOnce rest ':').1
        let dict_value := pyStrip (pySplitOnce rest ':').2
        if is_multiline_dict then
          match condLoc st with
          | some (ck, cl) =>
            { st with fm := appendToList st.fm ck cl (.d [(dict_key, dict_value)]),
                      cdi := .attached ck cl }
          | none => { st with cdi := .detached }
        else
          match condLoc st with
          | some (ck, cl) =>
            { st with fm := appendToList st.fm ck cl (.d [(dict_key, dict_value)]),
                      cdi := .cnone }
          | none => { st with cdi := .cnone }
      else
        match condLoc st with
        | some (ck, cl) =>
          { st with fm := appendToList st.fm ck cl (.s rest), cdi := .cnone }
        | none => st
    else if pyContainsChar stripped ':' then
      let key := pyStrip (pySplitOnce stripped ':').1
      let value := pyStrip (pySplitOnce stripped ':').2
      if indent == 0 || indent == st.base_indent then
        if !value.data.isEmpty then
          { st with fm := dset st.fm key (.s value), current_key := some key,
                    base_indent := indent, cdi := .cnone }
        else
          { st with fm := dset st.fm key (.m []), current_key := some key,
                    current_list := none, base_indent := indent, cdi := .cnone }
      else if st.cdi ≠ CDI.cnone && indent > st.base_indent + 2 then
        match st.cdi with
        | .attached ck cl => { st with fm := updateLastDict st.fm ck cl key value }
        | _ => st
      else if pyTruthyStrOpt st.current_key && decide (indent > st.base_indent) then
        match st.current_key with
        | some ck =>
          if !value.data.isEmpty then
            match dget st.fm ck with
            | some (.m xs) =>
              { st with fm := dset st.fm ck (.m (dset xs key (.s value))), cdi := .cnone }
            | _ => { st with cdi := .cnone }
          else
            match dget st.fm ck with
            | some (.m xs) =>
              { st with fm := dset st.fm ck (.m (dset xs key (.l []))),
                        current_list := some key, cdi := .cnone }
            | _ => { st with cdi := .cnone }
        | none => st
      else st
    else st

/-- Index of the first line (from 1) whose stripped content is `---`. -/
def findDelimAux : List String → Nat → Option Nat
  | [], _ => none
  | l :: ls, i => if pyStrip l == "---" then some i else findDelimAux ls (i + 1)

/-- The closing-delimiter search of `parse_frontmatter` (source lines 93-97). -/
def findDelim (lines : List String) : Option Nat := findDelimAux (lines.drop 1) 1

/-- `parse_frontmatter(content)`: `(metadata-or-none, body)`. Absent opening
delimiter, fewer than three lines, or no closing `---` line all yield
`(none, content)`. Otherwise lines `1 .. end_idx-1` are folded through
`pfLine` and the body is everything after the closing delimiter. -/
def parse_frontmatter (content : String) : Option Frontmatter × String :=
  if !pyStartsWith content "---" then (none, content)
  else
    let lines := splitLines content
    if lines.length < 3 then (none, content)
    else
      match findDelim lines with
      | none => (none, content)
      | some end_idx =>
        let st := (List.range' 1 (end_idx - 1)).foldl (pfLine lines end_idx)
          ⟨[], none, none, .cnone, 0⟩
        (some st.fm, joinLines (lines.drop (end_idx + 1)))

/-! ## Filesystem model and the three reference resolvers -/

/-- The filesystem as seen by the validator: `os.path.exists` and a read that
either yields the file contents or raises (modelled as `.error`). -/
structure FS where
  fexists : String → Bool
  fread : String → Except String String

/-- Result of `validate_requirement_reference`: its `(ok, message)` pair plus
the staleness warnings it prints (modelling the `print(...)` calls). -/
structure RRes where
  ok : Bool
  err : Option String
  warns : List String
deriving DecidableEq, Repr

/-- Strip one leading `/` (repository-relative markdown paths, lines 267-268
and 301-302). -/
def stripLeadSlash (p : String) : String :=
  if pyStartsWith p "/" then strTail p else p

/-- `validate_parameter_reference(param_name, param_path, workspace_root)`
(source lines 256-294). -/
def validate_parameter_reference (param_name param_path : String) (fs : FS)
    (workspace_root : String) : Bool × Option String :=
  let fa :=
    if pyContainsChar param_path '#' then pySplitOnce param_path '#'
    else (param_path, param_name)
  let anchor := fa.2
  let file_path := stripLeadSlash fa.1
  if param_name ≠ anchor then
    (false, some ("Parameter link text \x27" ++ param_name ++ "\x27 does not match anchor \x27"
      ++ anchor ++ "\x27 in " ++ param_path))
  else
    let abs_path := osPathJoin workspace_root file_path
    if !fs.fexists abs_path then
      (false, some ("Parameter file does not exist: " ++ file_path))
    else
      match fs.fread abs_path with
      | .error e => (false, some ("Error reading " ++ file_path ++ ": " ++ e))
      | .ok content =>
        if strContains content ("\"" ++ anchor ++ "\"")
            || strContains content ("\x27" ++ anchor ++ "\x27") then (true, none)
        else (false, some ("Parameter \x27" ++ anchor ++ "\x27 not found in " ++ file_path))

/-- The check `not frontmatter or frontmatter.get('id') != req_id`, as the
positive statement "the parse result is truthy and declares this id". -/
def fmDeclaresId (fm? : Option Frontmatter) (req_id : String) : Bool :=
  match fm? with
  | none => false
  | some fm =>
    !fm.isEmpty &&
      (match dget fm "id" with
       | some v => pyEqStr v req_id
       | none => false)

/-- The fragment-free lookup path of a requirement reference (lines 301-305):
leading slash stripped, then anything from the first `#` removed. -/
def reqLookupPath (p : String) : String :=
  let rp := stripLeadSlash p
  if pyContainsChar rp '#' then (pySplitOnce rp '#').1 else rp

/-- The extension test of line 309: `.md` or `.sysreq.md`. -/
def reqExtensionCheck (filename : String) : Bool :=
  pyEndsWith filename ".md" || pyEndsWith filename ".sysreq.md"

/-- `validate_requirement_reference(req_id, req_path, workspace_root,
ref_version, source_file)` (source lines 297-345). The version check never
fails the reference: a missing or different target version only appends a
printed warning. -/
def validate_requirement_reference (req_id req_path0 : String) (fs : FS)
    (workspace_root : String) (ref_version : Option Nat) (source_file : String) : RRes :=
  let req_path := stripLeadSlash req_path0
  let path_without_fragment := reqLookupPath req_path0
  let filename := pyBasename path_without_fragment
  if !(reqExtensionCheck filename) then
    ⟨false, some ("Requirement file must have .md or .sysreq.md extension: " ++ filename), []⟩
  else
    let abs_path := osPathJoin workspace_root path_without_fragment
    if !fs.fexists abs_path then
      ⟨false, some ("Requirement file does not exist: " ++ req_path), []⟩
    else
      match fs.fread abs_path with
      | .error e => ⟨false, some ("Error reading " ++ req_path ++ ": " ++ e), []⟩
      | .ok content =>
        let fm1 := (parse_frontmatter content).1
        let fm2 :=
          if fmDeclaresId fm1 req_id then fm1
          else parse_inline_yaml_for_requirement content req_id
        if !fmDeclaresId fm2 req_id then
          ⟨false, some ("Requirement file " ++ req_path ++ " does not contain ID \x27"
            ++ req_id ++ "\x27"), []⟩
        else
          let fm := fm2.getD []
          let warns :=
            match ref_version with
            | none => []
            | some n =>
              match dget fm "version" with
              | none =>
                ["WARNING: " ++ source_file ++ ": Reference to " ++ req_id
                  ++ " specifies version=" ++ Nat.repr n ++ ", but "
                  ++ path_without_fragment ++ " has no version field"]
              | some av =>
                if pyEqNat av n then []
                else
                  ["WARNING: " ++ source_file ++ ": Reference to " ++ req_id
                    ++ " specifies version=" ++ Nat.repr n ++ ", but "
                    ++ path_without_fragment ++ " is at version=" ++ pyStr av]
          ⟨true, none, warns⟩

/-- `validate_test_reference(test_name, test_label, workspace_root)`
(source lines 348-390). -/
def validate_test_reference (test_name test_label : String) (fs : FS)
    (workspace_root : String) : Bool × Option String :=
  if !pyStartsWith test_label "//" then
    (false, some ("Invalid test label format: " ++ test_label))
  else
    let label_parts := pySplitAll (strTail (strTail test_label)) ':'
    if label_parts.length ≠ 2 then
      (false, some ("Invalid test label format (missing :): " ++ test_label))
    else
      let package_path := label_parts.getD 0 ""
      let target_name := label_parts.getD 1 ""
      if test_name ≠ target_name then
        (false, some ("Test link text \x27" ++ test_name ++ "\x27 does not match target name \x27"
          ++ target_name ++ "\x27 in " ++ test_label))
      else
        let p1 := osPathJoin (osPathJoin workspace_root package_path) "BUILD.bazel"
        let p2 := osPathJoin (osPathJoin workspace_root package_path) "BUILD"
        let build_file := if fs.fexists p1 then some p1
          else if fs.fexists p2 then some p2 else none
        match build_file with
        | none => (false, some ("No BUILD file found for package: //" ++ package_path))
        | some bf =>
          match fs.fread bf with
          | .error e =>
            (false, some ("Error validating test target " ++ test_label ++ ": " ++ e))
          | .ok build_content =>
            if strContains build_content ("name = \"" ++ target_name ++ "\"")
                || strContains build_content ("name = \x27" ++ target_name ++ "\x27") then
              (true, none)
            else
              (false, some ("Test target \x27" ++ target_name ++ "\x27 not found in " ++ bf))

/-! ## Consistency engine (`validate_requirement_file`, source lines 393-545)

Each constructor of `VErr` corresponds to exactly one `errors.append(...)`
site of the source, carrying the data interpolated into that f-string. -/

inductive VErr where
  /-- "Frontmatter KIND references are not sorted lexicographically" with the
  current and the expected (sorted) order (lines 433-438 and 462-468). -/
  | notSorted (file kind : String) (current expected : List String)
  /-- "Requirement reference #i missing 'path' key" (line 448). -/
  | reqMissingPath (file : String) (idx : Nat)
  /-- "Requirement reference #i missing 'version' key (path: p)" (line 450). -/
  | reqMissingVersion (file : String) (idx : Nat) (path : String)
  /-- "Requirement reference 'r' must use dict format" (lines 454-459). -/
  | reqNotDict (file item : String)
  /-- "Body references parameter 'p' not declared in frontmatter" (line 504). -/
  | usedParamUndeclared (file v : String)
  /-- "Body references requirement 'r' not declared in frontmatter" (line 508). -/
  | usedReqUndeclared (file v : String)
  /-- "Body references test 't' not declared in frontmatter" (line 512). -/
  | usedTestUndeclared (file v : String)
  /-- "Frontmatter declares parameter 'p' but it's not used in body" (line 517). -/
  | declParamUnused (file v : String)
  /-- "Frontmatter declares requirement 'r' but it's not used in body" (line 521). -/
  | declReqUnused (file v : String)
  /-- "Frontmatter declares test 't' but it's not used in body" (line 525). -/
  | declTestUnused (file v : String)
  /-- A failed resolver: `f"{file_path}: {error}"` (lines 531, 537, 543). -/
  | resErr (file : String) (msg : Option String)
  /-- "Error reading file" at the top of `validate_requirement_file` (line 401). -/
  | readErr (file msg : String)
deriving DecidableEq, Repr

/-- Constructor discriminator, ordered as the append sites occur. -/
def ctorIdx : VErr → Nat
  | .notSorted .. => 0
  | .reqMissingPath .. => 1
  | .reqMissingVersion .. => 2
  | .reqNotDict .. => 3
  | .usedParamUndeclared .. => 4
  | .usedReqUndeclared .. => 5
  | .usedTestUndeclared .. => 6
  | .declParamUnused .. => 7
  | .declReqUnused .. => 8
  | .declTestUnused .. => 9
  | .resErr .. => 10
  | .readErr .. => 11

/-- `frontmatter.get('references', {})`. The source would raise an
`AttributeError` further on if this value were a scalar; that crash is outside
the model, so a non-dict value is mapped to the empty dict here and the
theorems that depend on `references` assume it is absent or a dict. -/
def getRefs (fm : Frontmatter) : List (String × Nested) :=
  match dget fm "references" with
  | some (.m xs) => xs
  | _ => []

/-- `fm_refs.get(kind, [])` as the list Python would iterate over: a list
value gives its items, a string value iterates its characters as one-char
strings, an absent key gives `[]`. -/
def refItemsOf : Option Nested → List Item
  | some (.l xs) => xs
  | some (.s v) => v.data.map (fun c => .s ⟨[c]⟩)
  | none => []

/-- Lexicographic comparison of char lists by code point: Python `a <= b`. -/
def lexLe : List Char → List Char → Bool
  | [], _ => true
  | _ :: _, [] => false
  | a :: as, b :: bs =>
    if a.toNat < b.toNat then true
    else if b.toNat < a.toNat then false
    else lexLe as bs

/-- Python string `<=` (code-point lexicographic). -/
def pyLe (a b : String) : Prop := lexLe a.data b.data = true

instance : DecidableRel pyLe := fun a b =>
  inferInstanceAs (Decidable (lexLe a.data b.data = true))

/-- Python `sorted` on strings: `pyLe` is a total, transitive, antisymmetric
order, so any correct sort — here insertion sort — produces the same list as
CPython's stable sort. -/
def pySorted (l : List String) : List String := l.insertionSort pyLe

/-- A Python `set` of strings, as its underlying deduplicated member list
(first occurrence kept; the source only uses membership and iteration, and no
claim depends on CPython's hash iteration order). -/
def pySet (l : List String) : List String := l.dedup

/-- Sortable values of a `parameters` / `tests` / `standards` list: dict items
contribute their `path` value when present and are skipped otherwise
(lines 421-429). -/
def sortableScalars (items : List Item) : List String :=
  items.filterMap (fun it =>
    match it with
    | .d m => dget m "path"
    | .s v => some v)

/-- Sortable values of the `requirements` list: dict items contribute
`get('path', '')`, plain items contribute themselves (lines 443-460). -/
def sortableReqs (items : List Item) : List String :=
  items.map (fun it =>
    match it with
    | .d m => (dget m "path").getD ""
    | .s v => v)

/-- The sort check for one of `parameters`, `tests`, `standards`
(lines 416-438): skipped when the declared list is empty. -/
def sortKindErr (file : String) (refs : List (String × Nested)) (kind : String) : List VErr :=
  let items := refItemsOf (dget refs kind)
  if items.isEmpty then []
  else
    let s := sortableScalars items
    let ss := pySorted s
    if s ≠ ss then [.notSorted file kind s ss] else []

/-- Lines 416-438: the three scalar reference kinds, in source order. -/
def sortSection (file : String) (refs : List (String × Nested)) : List VErr :=
  sortKindErr file refs "parameters" ++ sortKindErr file refs "tests"
    ++ sortKindErr file refs "standards"

/-- Per-item schema errors of the `requirements` list (lines 444-460). -/
def reqItemErrs (file : String) (items : List Item) : List VErr :=
  items.enum.flatMap (fun p =>
    match p.2 with
    | .d m =>
      (if dget m "path" = none then [VErr.reqMissingPath file (p.1 + 1)] else [])
        ++ (if dget m "version" = none then
              [VErr.reqMissingVersion file (p.1 + 1) ((dget m "path").getD "unknown")]
            else [])
    | .s v => [VErr.reqNotDict file v])

/-- Lines 440-468: `requirements` schema and sort checks. -/
def reqSection (file : String) (refs : List (String × Nested)) : List VErr :=
  let items := refItemsOf (dget refs "requirements")
  if items.isEmpty then []
  else
    let s := sortableReqs items
    let ss := pySorted s
    reqItemErrs file items ++ (if s ≠ ss then [.notSorted file "requirements" s ss] else [])

/-- Declared parameter set (lines 470-477): scalar items only, dicts skipped. -/
def fmParamsSet (fm : Frontmatter) : List String :=
  pySet ((refItemsOf (dget (getRefs fm) "parameters")).filterMap (fun it =>
    match it with
    | .d _ => none
    | .s v => some v))

/-- Declared requirement path set (lines 479-485): dicts give `get('path', '')`. -/
def fmReqsSet (fm : Frontmatter) : List String :=
  pySet ((refItemsOf (dget (getRefs fm) "requirements")).map (fun it =>
    match it with
    | .d m => (dget m "path").getD ""
    | .s v => v))

/-- Declared test set (lines 487-494): scalar items only, dicts skipped. -/
def fmTestsSet (fm : Frontmatter) : List String :=
  pySet ((refItemsOf (dget (getRefs fm) "tests")).filterMap (fun it =>
    match it with
    | .d _ => none
    | .s v => some v))

/-- `set(param_path for _, param_path in param_refs)` (line 497). -/
def bodyParamsSet (prefs : List (String × String)) : List String :=
  pySet (prefs.map (·.2))

/-- `set(req_path for _, req_path, _ in req_refs)` (line 498). -/
def bodyReqsSet (rrefs : List (String × String × Option Nat)) : List String :=
  pySet (rrefs.map (fun r => r.2.1))

/-- `set(test_label for _, test_label in test_refs)` (line 499). -/
def bodyTestsSet (trefs : List (String × String)) : List String :=
  pySet (trefs.map (·.2))

/-- Lines 501-512: every used reference must be declared. -/
def usedSection (file : String) (fm : Frontmatter) (prefs : List (String × String))
    (rrefs : List (String × String × Option Nat)) (trefs : List (String × String)) : List VErr :=
  (bodyParamsSet prefs).filterMap (fun p =>
      if p ∈ fmParamsSet fm then none else some (.usedParamUndeclared file p))
    ++ (bodyReqsSet rrefs).filterMap (fun p =>
      if p ∈ fmReqsSet fm then none else some (.usedReqUndeclared file p))
    ++ (bodyTestsSet trefs).filterMap (fun p =>
      if p ∈ fmTestsSet fm then none else some (.usedTestUndeclared file p))

/-- Lines 514-525: every declared reference must be used; for requirements an
empty declared path is skipped (`if req_path and ...`). -/
def declSection (file : String) (fm : Frontmatter) (prefs : List (String × String))
    (rrefs : List (String × String × Option Nat)) (trefs : List (String × String)) : List VErr :=
  (fmParamsSet fm).filterMap (fun p =>
      if p ∈ bodyParamsSet prefs then none else some (.declParamUnused file p))
    ++ (fmReqsSet fm).filterMap (fun p =>
      if p ≠ "" ∧ p ∉ bodyReqsSet rrefs then some (.declReqUnused file p) else none)
    ++ (fmTestsSet fm).filterMap (fun p =>
      if p ∈ bodyTestsSet trefs then none else some (.declTestUnused file p))

/-- The whole metadata-present block of `validate_requirement_file`
(lines 411-525), in source order. -/
def frontmatter_checks (file : String) (fm : Frontmatter) (prefs : List (String × String))
    (rrefs : List (String × String × Option Nat)) (trefs : List (String × String)) : List VErr :=
  sortSection file (getRefs fm) ++ reqSection file (getRefs fm)
    ++ usedSection file fm prefs rrefs trefs ++ declSection file fm prefs rrefs trefs

/-- Lines 527-543: resolve every extracted body reference, keeping failures. -/
def resSection (file : String) (fs : FS) (workspace_root : String)
    (prefs : List (String × String)) (rrefs : List (String × String × Option Nat))
    (trefs : List (String × String)) : List VErr :=
  prefs.filterMap (fun pr =>
      let r := validate_parameter_reference pr.1 pr.2 fs workspace_root
      if r.1 then none else some (.resErr file r.2))
    ++ rrefs.filterMap (fun rr =>
      let r := validate_requirement_reference rr.1 rr.2.1 fs workspace_root rr.2.2 file
      if r.ok then none else some (.resErr file r.err))
    ++ trefs.filterMap (fun tr =>
      let r := validate_test_reference tr.1 tr.2 fs workspace_root
      if r.1 then none else some (.resErr file r.2))

/-- The body-reference extractor `extract_markdown_references`, abstracted:
no claim concerns its regular-expression grammar, so validation is stated for
an arbitrary extractor with the source's output shape
`(param_refs, req_refs, test_refs)`. -/
abbrev Extractor :=
  String → List (String × String) × List (String × String × Option Nat) × List (String × String)

/-- Python truthiness of the parse result (`None` and `{}` are falsy). -/
def fmTruthy : Option Frontmatter → Bool
  | none => false
  | some fm => !fm.isEmpty

/-- `validate_requirement_file(file_path, workspace_root)` (lines 393-545):
read, parse, extract, run metadata checks when the metadata is truthy, and
resolve every body reference. -/
def validate_requirement_file (extract : Extractor) (fs : FS)
    (file_path workspace_root : String) : List VErr :=
  match fs.fread file_path with
  | .error e => [.readErr file_path e]
  | .ok content =>
    let pr := parse_frontmatter content
    let body := if fmTruthy pr.1 then pr.2 else content
    let ex := extract body
    let fmErrs :=
      match pr.1 with
      | some fm => if fm.isEmpty then [] else frontmatter_checks file_path fm ex.1 ex.2.1 ex.2.2
      | none => []
    fmErrs ++ resSection file_path fs workspace_root ex.1 ex.2.1 ex.2.2

/-- `main` (lines 548-569): validate every document, concatenate the errors,
exit 1 when any exist and 0 otherwise. -/
def mainRun (extract : Extractor) (fs : FS) (workspace_root : String)
    (files : List String) : Nat :=
  let all_errors := (files.map (fun f => validate_requirement_file extract fs f workspace_root)).flatten
  if all_errors.isEmpty then 0 else 1

/-- Drop every `?version=N` annotation from an extractor's requirement
references (versions are the sole source of staleness warnings). -/
def stripVersions (extract : Extractor) : Extractor := fun s =>
  let ex := extract s
  (ex.1, ex.2.1.map (fun r => (r.1, r.2.1, none)), ex.2.2)

/-- The spec-side simplification of `reqExtensionCheck`: accept exactly the
filenames ending in `.md`. -/
def mdOnlyExtension (filename : String) : Bool := pyEndsWith filename ".md"

/-! ## Helper lemmas -/

theorem lpre_append (a b x : List Char) (h : lpre (a ++ b) x = true) : lpre a x = true := by
  induction a generalizing x with
  | nil => rfl
  | cons c cs ih =>
    cases x with
    | nil => simp [lpre] at h
    | cons y ys =>
      simp only [List.cons_append, lpre, Bool.and_eq_true] at h ⊢
      exact ⟨h.1, ih ys h.2⟩

theorem findDelimAux_eq_none (ls : List String) (i : Nat)
    (h : ∀ l ∈ ls, pyStrip l ≠ "---") : findDelimAux ls i = none := by
  induction ls generalizing i with
  | nil => rfl
  | cons l ls ih =>
    simp only [findDelimAux]
    rw [if_neg]
    · exact ih (i + 1) (fun x hx => h x (List.mem_cons_of_mem l hx))
    · simp only [beq_iff_eq]
      exact h l (List.mem_cons_self l ls)

theorem count_filterMap_guard {α β : Type} [DecidableEq α] [DecidableEq β]
    (P : α → Prop) [DecidablePred P] (g : α → β) (hg : Function.Injective g) (v : α) :
    ∀ l : List α, l.Nodup →
      (l.filterMap (fun p => if P p then some (g p) else none)).count (g v)
        = if v ∈ l ∧ P v then 1 else 0 := by
  intro l hl
  induction l with
  | nil => simp
  | cons a l ih =>
    obtain ⟨ha, hl'⟩ := List.nodup_cons.mp hl
    rw [List.filterMap_cons]
    by_cases hPa : P a
    · rw [if_pos hPa, List.count_cons, ih hl']
      by_cases hva : v = a
      · subst hva
        simp [ha, hPa]
      · have hne : (g a == g v) = false := by
          simp only [beq_eq_false_iff_ne, ne_eq]
          exact fun he => hva (hg he).symm
        rw [hne]
        simp [List.mem_cons, hva]
    · rw [if_neg hPa, ih hl']
      by_cases hva : v = a
      · subst hva
        simp [hPa, ha]
      · simp [List.mem_cons, hva]

theorem count_filterMap_ne {α β : Type} [DecidableEq β] (l : List α) (f : α → Option β)
    (e : β) (h : ∀ p, f p ≠ some e) : (l.filterMap f).count e = 0 := by
  rw [List.count_eq_zero]
  intro hmem
  obtain ⟨p, _, hp⟩ := List.mem_filterMap.mp hmem
  exact h p hp

theorem count_eq_zero_of_ctor {l : List VErr} {e : VErr}
    (h : ∀ x ∈ l, ctorIdx x ≠ ctorIdx e) : l.count e = 0 := by
  rw [List.count_eq_zero]
  intro hm
  exact h e hm rfl

theorem ctor_mem_sortKindErr {x : VErr} {f k : String} {refs : List (String × Nested)}
    (h : x ∈ sortKindErr f refs k) : ∃ c e, x = VErr.notSorted f k c e := by
  simp only [sortKindErr] at h
  split at h
  · simp at h
  · split at h
    · rw [List.mem_singleton] at h
      exact ⟨_, _, h⟩
    · simp at h

theorem ctor_mem_sortSection {x : VErr} {f : String} {refs : List (String × Nested)}
    (h : x ∈ sortSection f refs) :
    ∃ k c e, x = VErr.notSorted f k c e
      ∧ (k = "parameters" ∨ k = "tests" ∨ k = "standards") := by
  simp only [sortSection, List.mem_append] at h
  rcases h with (h | h) | h
  · obtain ⟨c, e, he⟩ := ctor_mem_sortKindErr h
    exact ⟨_, c, e, he, Or.inl rfl⟩
  · obtain ⟨c, e, he⟩ := ctor_mem_sortKindErr h
    exact ⟨_, c, e, he, Or.inr (Or.inl rfl)⟩
  · obtain ⟨c, e, he⟩ := ctor_mem_sortKindErr h
    exact ⟨_, c, e, he, Or.inr (Or.inr rfl)⟩

theorem ctor_mem_reqItemErrs {x : VErr} {f : String} {items : List Item}
    (h : x ∈ reqItemErrs f items) : ctorIdx x = 1 ∨ ctorIdx x = 2 ∨ ctorIdx x = 3 := by
  simp only [reqItemErrs, List.mem_flatMap] at h
  obtain ⟨p, _, hp⟩ := h
  rcases p with ⟨i, it⟩
  cases it with
  | d m =>
    simp only [List.mem_append] at hp
    rcases hp with hp | hp
    · split at hp
      · rw [List.mem_singleton] at hp
        subst hp; exact Or.inl rfl
      · simp at hp
    · split at hp
      · rw [List.mem_singleton] at hp
        subst hp; exact Or.inr (Or.inl rfl)
      · simp at hp
  | s v =>
    rw [List.mem_singleton] at hp
    subst hp; exact Or.inr (Or.inr rfl)

theorem mem_reqSection {x : VErr} {f : String} {refs : List (String × Nested)}
    (h : x ∈ reqSection f refs) :
    ctorIdx x = 1 ∨ ctorIdx x = 2 ∨ ctorIdx x = 3
      ∨ x = VErr.notSorted f "requirements"
          (sortableReqs (refItemsOf (dget refs "requirements")))
          (pySorted (sortableReqs (refItemsOf (dget refs "requirements")))) := by
  simp only [reqSection] at h
  split at h
  · simp at h
  · rw [List.mem_append] at h
    rcases h with h | h
    · rcases ctor_mem_reqItemErrs h with h | h | h
      · exact Or.inl h
      · exact Or.inr (Or.inl h)
      · exact Or.inr (Or.inr (Or.inl h))
    · split at h
      · rw [List.mem_singleton] at h
        exact Or.inr (Or.inr (Or.inr h))
      · simp at h

theorem mem_usedSection {x : VErr} {f : String} {fm : Frontmatter}
    {prefs : List (String × String)} {rrefs : List (String × String × Option Nat)}
    {trefs : List (String × String)} (h : x ∈ usedSection f fm prefs rrefs trefs) :
    (∃ v, x = VErr.usedParamUndeclared f v) ∨ (∃ v, x = VErr.usedReqUndeclared f v)
      ∨ ∃ v, x = VErr.usedTestUndeclared f v := by
  simp only [usedSection, List.mem_append, List.mem_filterMap] at h
  rcases h with (⟨p, _, hp⟩ | ⟨p, _, hp⟩) | ⟨p, _, hp⟩
  · left
    split at hp
    · simp at hp
    · exact ⟨p, (Option.some.inj hp).symm⟩
  · right; left
    split at hp
    · simp at hp
    · exact ⟨p, (Option.some.inj hp).symm⟩
  · right; right
    split at hp
    · simp at hp
    · exact ⟨p, (Option.some.inj hp).symm⟩

theorem mem_declSection {x : VErr} {f : String} {fm : Frontmatter}
    {prefs : List (String × String)} {rrefs : List (String × String × Option Nat)}
    {trefs : List (String × String)} (h : x ∈ declSection f fm prefs rrefs trefs) :
    (∃ v, x = VErr.declParamUnused f v) ∨ (∃ v, x = VErr.declReqUnused f v)
      ∨ ∃ v, x = VErr.declTestUnused f v := by
  simp only [declSection, List.mem_append, List.mem_filterMap] at h
  rcases h with (⟨p, _, hp⟩ | ⟨p, _, hp⟩) | ⟨p, _, hp⟩
  · left
    split at hp
    · simp at hp
    · exact ⟨p, (Option.some.inj hp).symm⟩
  · right; left
    split at hp
    · exact ⟨p, (Option.some.inj hp).symm⟩
    · simp at hp
  · right; right
    split at hp
    · simp at hp
    · exact ⟨p, (Option.some.inj hp).symm⟩

theorem mem_resSection {x : VErr} {f : String} {fs : FS} {w : String}
    {prefs : List (String × String)} {rrefs : List (String × String × Option Nat)}
    {trefs : List (String × String)} (h : x ∈ resSection f fs w prefs rrefs trefs) :
    ∃ m, x = VErr.resErr f m := by
  simp only [resSection, List.mem_append, List.mem_filterMap] at h
  rcases h with (⟨p, _, hp⟩ | ⟨p, _, hp⟩) | ⟨p, _, hp⟩ <;>
    [skip; skip; skip] <;>
    first
    | (split at hp
       · simp at hp
       · exact ⟨_, (Option.some.inj hp).symm⟩)

theorem isEmpty_false_of_ne_nil {α : Type} {l : List α} (h : l ≠ []) : l.isEmpty = false := by
  cases l with
  | nil => exact absurd rfl h
  | cons a l => rfl

/-- Reduction of the validator on a document whose metadata parses truthy. -/
theorem validate_eq_checks (extract : Extractor) (fs : FS) (file w content : String)
    (fm : Frontmatter) (prefs : List (String × String))
    (rrefs : List (String × String × Option Nat)) (trefs : List (String × String))
    (hread : fs.fread file = Except.ok content)
    (hfm : (parse_frontmatter content).1 = some fm)
    (hne : fm ≠ [])
    (hex : extract (parse_frontmatter content).2 = (prefs, rrefs, trefs)) :
    validate_requirement_file extract fs file w
      = frontmatter_checks file fm prefs rrefs trefs
        ++ resSection file fs w prefs rrefs trefs := by
  have hne' := isEmpty_false_of_ne_nil hne
  unfold validate_requirement_file
  rw [hread]
  simp only [hfm, fmTruthy, hne', Bool.not_false, if_true, hex]
  simp

theorem usedParamUndeclared_inj (f : String) :
    Function.Injective (VErr.usedParamUndeclared f) := by
  intro a b h
  injection h with _ h2

theorem usedReqUndeclared_inj (f : String) :
    Function.Injective (VErr.usedReqUndeclared f) := by
  intro a b h
  injection h with _ h2

theorem usedTestUndeclared_inj (f : String) :
    Function.Injective (VErr.usedTestUndeclared f) := by
  intro a b h
  injection h with _ h2

theorem declParamUnused_inj (f : String) :
    Function.Injective (VErr.declParamUnused f) := by
  intro a b h
  injection h with _ h2

theorem declReqUnused_inj (f : String) :
    Function.Injective (VErr.declReqUnused f) := by
  intro a b h
  injection h with _ h2

theorem declTestUnused_inj (f : String) :
    Function.Injective (VErr.declTestUnused f) := by
  intro a b h
  injection h with _ h2

/-- Flip an `if C then none else some _` emitter into guard form. -/
theorem emit_flip {α β : Type} (C : α → Prop) [DecidablePred C] (g : α → β) :
    (fun p => if C p then none else some (g p))
      = (fun p => if ¬ C p then some (g p) else none) := by
  funext p
  by_cases hp : C p <;> simp [hp]

theorem count_filterMap_flip {α β : Type} [DecidableEq α] [DecidableEq β]
    (C : α → Prop) [DecidablePred C] (g : α → β) (hg : Function.Injective g) (v : α)
    (l : List α) (hl : l.Nodup) :
    (l.filterMap (fun p => if C p then none else some (g p))).count (g v)
      = if v ∈ l ∧ ¬ C v then 1 else 0 := by
  rw [emit_flip C g]
  exact count_filterMap_guard (fun p => ¬ C p) g hg v l hl

theorem nodup_bodyParamsSet (prefs : List (String × String)) :
    (bodyParamsSet prefs).Nodup := List.nodup_dedup _

theorem nodup_bodyReqsSet (rrefs : List (String × String × Option Nat)) :
    (bodyReqsSet rrefs).Nodup := List.nodup_dedup _

theorem nodup_bodyTestsSet (trefs : List (String × String)) :
    (bodyTestsSet trefs).Nodup := List.nodup_dedup _

theorem nodup_fmParamsSet (fm : Frontmatter) : (fmParamsSet fm).Nodup := List.nodup_dedup _

theorem nodup_fmReqsSet (fm : Frontmatter) : (fmReqsSet fm).Nodup := List.nodup_dedup _

theorem nodup_fmTestsSet (fm : Frontmatter) : (fmTestsSet fm).Nodup := List.nodup_dedup _

theorem count_usedSection_param (f : String) (fm : Frontmatter)
    (prefs : List (String × String)) (rrefs : List (String × String × Option Nat))
    (trefs : List (String × String)) (v : String) :
    (usedSection f fm prefs rrefs trefs).count (VErr.usedParamUndeclared f v)
      = if v ∈ bodyParamsSet prefs ∧ v ∉ fmParamsSet fm then 1 else 0 := by
  simp only [usedSection, List.count_append]
  rw [count_filterMap_flip (· ∈ fmParamsSet fm) _ (usedParamUndeclared_inj f) v _
    (nodup_bodyParamsSet prefs),
    count_filterMap_ne _ _ _ (by intro p; split <;> simp),
    count_filterMap_ne _ _ _ (by intro p; split <;> simp)]
  omega

theorem count_usedSection_req (f : String) (fm : Frontmatter)
    (prefs : List (String × String)) (rrefs : List (String × String × Option Nat))
    (trefs : List (String × String)) (v : String) :
    (usedSection f fm prefs rrefs trefs).count (VErr.usedReqUndeclared f v)
      = if v ∈ bodyReqsSet rrefs ∧ v ∉ fmReqsSet fm then 1 else 0 := by
  simp only [usedSection, List.count_append]
  rw [count_filterMap_flip (· ∈ fmReqsSet fm) _ (usedReqUndeclared_inj f) v _
    (nodup_bodyReqsSet rrefs),
    count_filterMap_ne _ _ _ (by intro p; split <;> simp),
    count_filterMap_ne _ _ _ (by intro p; split <;> simp)]
  omega

theorem count_usedSection_test (f : String) (fm : Frontmatter)
    (prefs : List (String × String)) (rrefs : List (String × String × Option Nat))
    (trefs : List (String × String)) (v : String) :
    (usedSection f fm prefs rrefs trefs).count (VErr.usedTestUndeclared f v)
      = if v ∈ bodyTestsSet trefs ∧ v ∉ fmTestsSet fm then 1 else 0 := by
  simp only [usedSection, List.count_append]
  rw [count_filterMap_flip (· ∈ fmTestsSet fm) _ (usedTestUndeclared_inj f) v _
    (nodup_bodyTestsSet trefs),
    count_filterMap_ne _ _ _ (by intro p; split <;> simp),
    count_filterMap_ne _ _ _ (by intro p; split <;> simp)]
  omega

theorem count_declSection_param (f : String) (fm : Frontmatter)
    (prefs : List (String × String)) (rrefs : List (String × String × Option Nat))
    (trefs : List (String × String)) (v : String) :
    (declSection f fm prefs rrefs trefs).count (VErr.declParamUnused f v)
      = if v ∈ fmParamsSet fm ∧ v ∉ bodyParamsSet prefs then 1 else 0 := by
  simp only [declSection, List.count_append]
  rw [count_filterMap_flip (· ∈ bodyParamsSet prefs) _ (declParamUnused_inj f) v _
    (nodup_fmParamsSet fm),
    count_filterMap_ne _ _ _ (by intro p; split <;> simp),
    count_filterMap_ne _ _ _ (by intro p; split <;> simp)]
  omega

theorem count_declSection_req (f : String) (fm : Frontmatter)
    (prefs : List (String × String)) (rrefs : List (String × String × Option Nat))
    (trefs : List (String × String)) (v : String) :
    (declSection f fm prefs rrefs trefs).count (VErr.declReqUnused f v)
      = if v ∈ fmReqsSet fm ∧ (v ≠ "" ∧ v ∉ bodyReqsSet rrefs) then 1 else 0 := by
  simp only [declSection, List.count_append]
  rw [count_filterMap_guard (fun p => p ≠ "" ∧ p ∉ bodyReqsSet rrefs) _
    (declReqUnused_inj f) v _ (nodup_fmReqsSet fm),
    count_filterMap_ne _ _ _ (by intro p; split <;> simp),
    count_filterMap_ne _ _ _ (by intro p; split <;> simp)]
  omega

theorem count_declSection_test (f : String) (fm : Frontmatter)
    (prefs : List (String × String)) (rrefs : List (String × String × Option Nat))
    (trefs : List (String × String)) (v : String) :
    (declSection f fm prefs rrefs trefs).count (VErr.declTestUnused f v)
      = if v ∈ fmTestsSet fm ∧ v ∉ bodyTestsSet trefs then 1 else 0 := by
  simp only [declSection, List.count_append]
  rw [count_filterMap_flip (· ∈ bodyTestsSet trefs) _ (declTestUnused_inj f) v _
    (nodup_fmTestsSet fm),
    count_filterMap_ne _ _ _ (by intro p; split <;> simp),
    count_filterMap_ne _ _ _ (by intro p; split <;> simp)]
  omega

theorem count_sortSection_zero {f : String} {refs : List (String × Nested)} {e : VErr}
    (he : ctorIdx e ≠ 0) : (sortSection f refs).count e = 0 := by
  apply count_eq_zero_of_ctor
  intro x hx
  obtain ⟨k, c, d, hxe, _⟩ := ctor_mem_sortSection hx
  subst hxe
  exact fun hc => he hc.symm

theorem count_reqSection_zero {f : String} {refs : List (String × Nested)} {e : VErr}
    (he : 4 ≤ ctorIdx e) : (reqSection f refs).count e = 0 := by
  apply count_eq_zero_of_ctor
  intro x hx
  have h0 : ctorIdx e ≠ 0 := by omega
  have h1 : ctorIdx e ≠ 1 := by omega
  have h2 : ctorIdx e ≠ 2 := by omega
  have h3 : ctorIdx e ≠ 3 := by omega
  rcases mem_reqSection hx with h | h | h | h
  · exact fun hc => h1 (h ▸ hc).symm
  · exact fun hc => h2 (h ▸ hc).symm
  · exact fun hc => h3 (h ▸ hc).symm
  · subst h
    exact fun hc => h0 hc.symm

theorem count_usedSection_zero {f : String} {fm : Frontmatter}
    {prefs : List (String × String)} {rrefs : List (String × String × Option Nat)}
    {trefs : List (String × String)} {e : VErr}
    (he : ctorIdx e < 4 ∨ 6 < ctorIdx e) :
    (usedSection f fm prefs rrefs trefs).count e = 0 := by
  apply count_eq_zero_of_ctor
  intro x hx
  have h4 : ctorIdx e ≠ 4 := by rcases he with he | he <;> omega
  have h5 : ctorIdx e ≠ 5 := by rcases he with he | he <;> omega
  have h6 : ctorIdx e ≠ 6 := by rcases he with he | he <;> omega
  rcases mem_usedSection hx with ⟨v, h⟩ | ⟨v, h⟩ | ⟨v, h⟩ <;> subst h
  · exact fun hc => h4 hc.symm
  · exact fun hc => h5 hc.symm
  · exact fun hc => h6 hc.symm

theorem count_declSection_zero {f : String} {fm : Frontmatter}
    {prefs : List (String × String)} {rrefs : List (String × String × Option Nat)}
    {trefs : List (String × String)} {e : VErr}
    (he : ctorIdx e < 7 ∨ 9 < ctorIdx e) :
    (declSection f fm prefs rrefs trefs).count e = 0 := by
  apply count_eq_zero_of_ctor
  intro x hx
  have h7 : ctorIdx e ≠ 7 := by rcases he with he | he <;> omega
  have h8 : ctorIdx e ≠ 8 := by rcases he with he | he <;> omega
  have h9 : ctorIdx e ≠ 9 := by rcases he with he | he <;> omega
  rcases mem_declSection hx with ⟨v, h⟩ | ⟨v, h⟩ | ⟨v, h⟩ <;> subst h
  · exact fun hc => h7 hc.symm
  · exact fun hc => h8 hc.symm
  · exact fun hc => h9 hc.symm

theorem count_resSection_zero {f : String} {fs : FS} {w : String}
    {prefs : List (String × String)} {rrefs : List (String × String × Option Nat)}
    {trefs : List (String × String)} {e : VErr}
    (he : ctorIdx e ≠ 10) :
    (resSection f fs w prefs rrefs trefs).count e = 0 := by
  apply count_eq_zero_of_ctor
  intro x hx
  obtain ⟨m, h⟩ := mem_resSection hx
  subst h
  exact fun hc => he hc.symm

/-! ## Claim C1 -/

/-- A document whose metadata declares one `requirements` entry that has a
`version` but no `path` key: the declared requirement-path set is then `{""}`. -/
def c1ceContent : String := "---\nreferences:\n  requirements:\n    - version: 1\n---\n"

/-- The metadata `c1ceContent` parses to. -/
def c1ceFM : Frontmatter :=
  [("references", TopVal.m [("requirements", Nested.l [Item.d [("version", "1")]])])]

/-- Extractor for a body with no references at all. -/
def emptyExtract : Extractor := fun _ => ([], [], [])

/-- Filesystem holding only the counterexample document. -/
def c1ceFS : FS := ⟨fun _ => true, fun _ => .ok c1ceContent⟩

/-- Claim C1, counterexample: the declared requirements set of this document is
`{""}` (built from a declared entry lacking a `path` key) and `""` is absent
from the used set, yet validation emits zero "declared but unused" requirement
errors — the source skips falsy paths (`if req_path and ...`, line 520), so the
claim's "each value in the declared set absent from the used set yields exactly
one error" fails at this input. -/
theorem c1_counterexample :
    (parse_frontmatter c1ceContent).1 = some c1ceFM
    ∧ "" ∈ fmReqsSet c1ceFM
    ∧ "" ∉ bodyReqsSet ([] : List (String × String × Option Nat))
    ∧ (validate_requirement_file emptyExtract c1ceFS "f.md" "w").count
        (VErr.declReqUnused "f.md" "") = 0 := by
  decide

/-- Claim C1 (amended): for every document whose metadata parses truthy, and
writing `declared`/`used` for the per-kind sets the code builds, every used
value absent from the declared set yields exactly one "used but undeclared"
error and every declared value absent from the used set yields exactly one
"declared but unused" error — for `parameters` and `tests` unconditionally, and
for `requirements` only for non-empty declared paths (an empty path, which can
only arise from an entry lacking `path`, is skipped; it is reported as a
missing-`path` schema error instead). `standards` has no such check (no error
constructor for it even exists). -/
theorem c1_amended_theorem (extract : Extractor) (fs : FS) (file w content : String)
    (fm : Frontmatter) (prefs : List (String × String))
    (rrefs : List (String × String × Option Nat)) (trefs : List (String × String))
    (v : String)
    (hread : fs.fread file = Except.ok content)
    (hfm : (parse_frontmatter content).1 = some fm)
    (hne : fm ≠ [])
    (hex : extract (parse_frontmatter content).2 = (prefs, rrefs, trefs)) :
    ((validate_requirement_file extract fs file w).count (VErr.usedParamUndeclared file v)
        = if v ∈ bodyParamsSet prefs ∧ v ∉ fmParamsSet fm then 1 else 0)
    ∧ ((validate_requirement_file extract fs file w).count (VErr.usedReqUndeclared file v)
        = if v ∈ bodyReqsSet rrefs ∧ v ∉ fmReqsSet fm then 1 else 0)
    ∧ ((validate_requirement_file extract fs file w).count (VErr.usedTestUndeclared file v)
        = if v ∈ bodyTestsSet trefs ∧ v ∉ fmTestsSet fm then 1 else 0)
    ∧ ((validate_requirement_file extract fs file w).count (VErr.declParamUnused file v)
        = if v ∈ fmParamsSet fm ∧ v ∉ bodyParamsSet prefs then 1 else 0)
    ∧ ((validate_requirement_file extract fs file w).count (VErr.declReqUnused file v)
        = if v ∈ fmReqsSet fm ∧ v ≠ "" ∧ v ∉ bodyReqsSet rrefs then 1 else 0)
    ∧ ((validate_requirement_file extract fs file w).count (VErr.declTestUnused file v)
        = if v ∈ fmTestsSet fm ∧ v ∉ bodyTestsSet trefs then 1 else 0) := by
  have hval := validate_eq_checks extract fs file w content fm prefs rrefs trefs
    hread hfm hne hex
  refine ⟨?_, ?_, ?_, ?_, ?_, ?_⟩ <;>
    rw [hval] <;> simp only [frontmatter_checks, List.count_append]
  · rw [count_sortSection_zero (by simp [ctorIdx]),
      count_reqSection_zero (by simp [ctorIdx]),
      count_usedSection_param,
      count_declSection_zero (Or.inl (by simp [ctorIdx])),
      count_resSection_zero (by simp [ctorIdx])]
    omega
  · rw [count_sortSection_zero (by simp [ctorIdx]),
      count_reqSection_zero (by simp [ctorIdx]),
      count_usedSection_req,
      count_declSection_zero (Or.inl (by simp [ctorIdx])),
      count_resSection_zero (by simp [ctorIdx])]
    omega
  · rw [count_sortSection_zero (by simp [ctorIdx]),
      count_reqSection_zero (by simp [ctorIdx]),
      count_usedSection_test,
      count_declSection_zero (Or.inl (by simp [ctorIdx])),
      count_resSection_zero (by simp [ctorIdx])]
    omega
  · rw [count_sortSection_zero (by simp [ctorIdx]),
      count_reqSection_zero (by simp [ctorIdx]),
      count_usedSection_zero (Or.inr (by simp [ctorIdx])),
      count_declSection_param,
      count_resSection_zero (by simp [ctorIdx])]
    omega
  · rw [count_sortSection_zero (by simp [ctorIdx]),
      count_reqSection_zero (by simp [ctorIdx]),
      count_usedSection_zero (Or.inr (by simp [ctorIdx])),
      count_declSection_req,
      count_resSection_zero (by simp [ctorIdx])]
    omega
  · rw [count_sortSection_zero (by simp [ctorIdx]),
      count_reqSection_zero (by simp [ctorIdx]),
      count_usedSection_zero (Or.inr (by simp [ctorIdx])),
      count_declSection_test,
      count_resSection_zero (by simp [ctorIdx])]
    omega

/-- A document declaring parameter `p1`, whose body uses only parameter path
`pa`: one declared-but-unused and one used-but-undeclared error expected. -/
def c1wContent : String := "---\nreferences:\n  parameters:\n    - p1\n---\nbody"

/-- The metadata `c1wContent` parses to. -/
def c1wFM : Frontmatter :=
  [("references", TopVal.m [("parameters", Nested.l [Item.s "p1"])])]

/-- Extractor returning one body parameter reference `[@a](pa)`. -/
def c1wExtract : Extractor := fun _ => ([("a", "pa")], [], [])

/-- Filesystem holding only the witness document. -/
def c1wFS : FS := ⟨fun _ => true, fun _ => .ok c1wContent⟩

/-- Witness for `c1_amended_theorem` at a concrete document: the declared
parameter `p1` is unused, giving exactly one declared-but-unused error. -/
theorem c1_witness :
    (validate_requirement_file c1wExtract c1wFS "f.md" "w").count
        (VErr.declParamUnused "f.md" "p1")
      = if "p1" ∈ fmParamsSet c1wFM ∧ "p1" ∉ bodyParamsSet [("a", "pa")] then 1 else 0 :=
  (c1_amended_theorem c1wExtract c1wFS "f.md" "w" c1wContent c1wFM [("a", "pa")] [] []
    "p1" rfl (by decide) (by decide) rfl).2.2.2.1

/-! ## Claim C2 -/

/-- Claim C2: if the input does not start with the `---` delimiter, or no line
after the first strips to exactly `---`, then `parse_frontmatter` returns
absent metadata together with the whole unmodified input as body; and on such
a document the validator reports no metadata-derived errors at all — its output
is exactly the body-reference resolution errors. -/
theorem c2_theorem (content : String)
    (h : pyStartsWith content "---" = false
      ∨ ∀ l ∈ (splitLines content).drop 1, pyStrip l ≠ "---") :
    parse_frontmatter content = (none, content)
    ∧ ∀ (extract : Extractor) (fs : FS) (fp w : String),
        fs.fread fp = Except.ok content →
        validate_requirement_file extract fs fp w
          = resSection fp fs w (extract content).1 (extract content).2.1
              (extract content).2.2 := by
  have hp : parse_frontmatter content = (none, content) := by
    unfold parse_frontmatter
    by_cases hs : pyStartsWith content "---"
    · rw [hs]
      simp only [Bool.not_true, Bool.false_eq_true, if_false]
      have hall : ∀ l ∈ (splitLines content).drop 1, pyStrip l ≠ "---" := by
        rcases h with h | h
        · rw [hs] at h
          exact absurd h (by simp)
        · exact h
      by_cases hl : (splitLines content).length < 3
      · rw [if_pos hl]
      · rw [if_neg hl]
        have hd : findDelim (splitLines content) = none :=
          findDelimAux_eq_none _ 1 hall
        rw [hd]
    · have hs' : pyStartsWith content "---" = false := by
        simpa using hs
      rw [hs']
      simp
  refine ⟨hp, ?_⟩
  intro extract fs fp w hread
  unfold validate_requirement_file
  rw [hread]
  simp only [hp, fmTruthy]
  simp

/-- Witness for `c2_theorem` on a plain document with no metadata block. -/
theorem c2_witness :
    parse_frontmatter "just a body line" = (none, "just a body line")
    ∧ validate_requirement_file emptyExtract ⟨fun _ => true, fun _ => .ok "just a body line"⟩
        "f.md" "w" = resSection "f.md" ⟨fun _ => true, fun _ => .ok "just a body line"⟩ "w"
          (emptyExtract "just a body line").1 (emptyExtract "just a body line").2.1
          (emptyExtract "just a body line").2.2 := by
  have h := c2_theorem "just a body line" (Or.inl (by decide))
  exact ⟨h.1, h.2 emptyExtract ⟨fun _ => true, fun _ => .ok "just a body line"⟩ "f.md" "w" rfl⟩

/-! ## Claim C3 -/

theorem vrr_version_indep (id p : String) (fs : FS) (w : String)
    (v v' : Option Nat) (src src' : String) :
    (validate_requirement_reference id p fs w v src).ok
        = (validate_requirement_reference id p fs w v' src').ok
    ∧ (validate_requirement_reference id p fs w v src).err
        = (validate_requirement_reference id p fs w v' src').err := by
  simp only [validate_requirement_reference]
  by_cases h1 : reqExtensionCheck (pyBasename (reqLookupPath p))
  · simp only [h1, Bool.not_true, Bool.false_eq_true, if_false]
    by_cases h2 : fs.fexists (osPathJoin w (reqLookupPath p))
    · simp only [h2, Bool.not_true, Bool.false_eq_true, if_false]
      cases h3 : fs.fread (osPathJoin w (reqLookupPath p)) with
      | error e => simp
      | ok content =>
        by_cases h4 : fmDeclaresId
            (if fmDeclaresId (parse_frontmatter content).1 id
             then (parse_frontmatter content).1
             else parse_inline_yaml_for_requirement content id) id
        · simp [h4]
        · simp [h4]
    · simp [h2]
  · simp [h1]

theorem bodyReqsSet_stripVersions (r : List (String × String × Option Nat)) :
    bodyReqsSet (r.map (fun x => (x.1, x.2.1, (none : Option Nat)))) = bodyReqsSet r := by
  simp [bodyReqsSet, List.map_map]
  rfl

theorem frontmatter_checks_version_indep (fp : String) (fm : Frontmatter)
    (p : List (String × String)) (r : List (String × String × Option Nat))
    (t : List (String × String)) :
    frontmatter_checks fp fm p (r.map (fun x => (x.1, x.2.1, (none : Option Nat)))) t
      = frontmatter_checks fp fm p r t := by
  unfold frontmatter_checks usedSection declSection
  rw [bodyReqsSet_stripVersions]

theorem resSection_version_indep (fp : String) (fs : FS) (w : String)
    (p : List (String × String)) (r : List (String × String × Option Nat))
    (t : List (String × String)) :
    resSection fp fs w p (r.map (fun x => (x.1, x.2.1, (none : Option Nat)))) t
      = resSection fp fs w p r t := by
  unfold resSection
  rw [List.filterMap_map]
  have hB := @List.filterMap_congr (String × String × Option Nat) VErr
    ((fun rr : String × String × Option Nat =>
        let q := validate_requirement_reference rr.1 rr.2.1 fs w rr.2.2 fp
        if q.ok = true then none else some (VErr.resErr fp q.err))
      ∘ fun x : String × String × Option Nat => (x.1, x.2.1, (none : Option Nat)))
    (fun rr : String × String × Option Nat =>
        let q := validate_requirement_reference rr.1 rr.2.1 fs w rr.2.2 fp
        if q.ok = true then none else some (VErr.resErr fp q.err))
    r
    (by
      intro x _
      have h := vrr_version_indep x.1 x.2.1 fs w none x.2.2 fp fp
      simp only [Function.comp]
      rw [h.1, h.2])
  rw [hB]

theorem validate_stripVersions (extract : Extractor) (fs : FS) (fp w : String) :
    validate_requirement_file (stripVersions extract) fs fp w
      = validate_requirement_file extract fs fp w := by
  unfold validate_requirement_file
  cases h : fs.fread fp with
  | error e => rfl
  | ok content =>
    simp only [stripVersions]
    cases hfm : (parse_frontmatter content).1 with
    | none => simp [resSection_version_indep]
    | some fm =>
      by_cases he : fm.isEmpty <;>
        simp [he, frontmatter_checks_version_indep, resSection_version_indep]

/-- Claim C3: the batch run exits nonzero exactly when some document produced a
non-empty error list; the `(ok, err)` outcome of a requirement-reference
resolution never depends on the `?version=N` annotation or the source file
name (those only select staleness warnings, which are printed, not collected);
consequently erasing every version annotation changes neither any document's
error list nor the exit status. -/
theorem c3_theorem (extract : Extractor) (fs : FS) (w : String) (files : List String) :
    (mainRun extract fs w files ≠ 0
      ↔ ∃ f ∈ files, validate_requirement_file extract fs f w ≠ [])
    ∧ (∀ (id p : String) (v v' : Option Nat) (src src' : String),
        (validate_requirement_reference id p fs w v src).ok
            = (validate_requirement_reference id p fs w v' src').ok
        ∧ (validate_requirement_reference id p fs w v src).err
            = (validate_requirement_reference id p fs w v' src').err)
    ∧ (∀ fp, validate_requirement_file (stripVersions extract) fs fp w
        = validate_requirement_file extract fs fp w)
    ∧ mainRun (stripVersions extract) fs w files = mainRun extract fs w files := by
  refine ⟨?_, fun id p v v' src src' => vrr_version_indep id p fs w v v' src src',
    fun fp => validate_stripVersions extract fs fp w, ?_⟩
  · constructor
    · intro hne0
      by_contra hno
      push_neg at hno
      apply hne0
      have hemp : ((files.map
          (fun f => validate_requirement_file extract fs f w)).flatten).isEmpty = true := by
        rw [List.isEmpty_iff, List.flatten_eq_nil_iff]
        intro l hl
        obtain ⟨f, hf, rfl⟩ := List.mem_map.mp hl
        exact hno f hf
      simp [mainRun, hemp]
    · rintro ⟨f, hf, hne⟩
      have hemp : ((files.map
          (fun f => validate_requirement_file extract fs f w)).flatten).isEmpty = false := by
        rw [Bool.eq_false_iff]
        intro hcon
        rw [List.isEmpty_iff, List.flatten_eq_nil_iff] at hcon
        exact hne (hcon _ (List.mem_map_of_mem _ hf))
      simp [mainRun, hemp]
  · simp only [mainRun]
    have hmap : files.map (fun f => validate_requirement_file (stripVersions extract) fs f w)
        = files.map (fun f => validate_requirement_file extract fs f w) := by
      apply List.map_congr_left
      intro f _
      exact validate_stripVersions extract fs f w
    rw [hmap]

/-! ## Claim C4 -/

/-- A target requirement document in frontmatter style whose `version` matches
the reference's `version=2` annotation. -/
def c4Content : String := "---\nid: R1\nversion: 2\n---\nx"

/-- Filesystem holding only `c4Content`. -/
def c4FS : FS := ⟨fun _ => true, fun _ => .ok c4Content⟩

/-- Claim C4, divergence: the structured-block (frontmatter) parser stores the
digit-only scalar of `version: 2` as the string `"2"`, not the integer 2 — only
the inline-YAML parser coerces digits to integers. As a consequence the
version staleness comparison (int against str) mis-fires: a reference
annotated `version=2` to a frontmatter document whose version is exactly 2
still prints a staleness warning. -/
theorem c4_code_divergence :
    (parse_frontmatter "---\nversion: 2\n---\n").1 = some [("version", TopVal.s "2")]
    ∧ parse_inline_yaml_for_requirement "## R1\n```yaml\nversion: 2\n```\n" "R1"
        = some [("id", TopVal.s "R1"), ("version", TopVal.i 2)]
    ∧ (validate_requirement_reference "R1" "r.md" c4FS "w" (some 2) "s.md").ok = true
    ∧ (validate_requirement_reference "R1" "r.md" c4FS "w" (some 2) "s.md").warns ≠ [] := by
  decide

/-! ## Claim C5 -/

/-- Claim C5, counterexample: a top-level key with empty value followed by a
more-indented list item yields a (empty) map, not a list — the `- bar` item is
even dropped since `current_list` was reset to `None`; and a nested key with
empty value followed by a more-indented key-value line yields a list, not a
map. No look-ahead happens in either case, refuting the claimed
look-ahead-driven container choice at both levels. -/
theorem c5_counterexample :
    (parse_frontmatter "---\nfoo:\n  - bar\n---\n").1 = some [("foo", TopVal.m [])]
    ∧ (parse_frontmatter "---\na:\n  b:\n    c: d\n---\n").1
        = some [("a", TopVal.m [("b", Nested.l []), ("c", Nested.s "d")])] := by
  decide

/-- Claim C5 (amended): a key-value line with an empty value opens a container
whose kind is fixed by its level alone, with no look-ahead: at the top level
(indentation 0 or the current base indentation) the key is always bound to an
empty map and `current_list` is reset; at a nested level (under a truthy
current key, beyond the base indentation, and not a dict-item continuation)
the key is always bound to an empty list and becomes the current list. -/
theorem c5_amended_theorem (lines : List String) (end_idx : Nat) (st : PFState) (i : Nat)
    (h1 : (pyStrip (lines.getD i "")).data.isEmpty = false)
    (h2 : pyStartsWith (pyStrip (lines.getD i "")) "#" = false)
    (h3 : pyStartsWith (pyStrip (lines.getD i "")) "-" = false)
    (h4 : pyContainsChar (pyStrip (lines.getD i "")) ':' = true)
    (h6 : (pyStrip (pySplitOnce (pyStrip (lines.getD i "")) ':').2).data.isEmpty = true) :
    ((indentOf (lines.getD i "") = 0 ∨ indentOf (lines.getD i "") = st.base_indent) →
      (pfLine lines end_idx st i).fm
          = dset st.fm (pyStrip (pySplitOnce (pyStrip (lines.getD i "")) ':').1) (TopVal.m [])
        ∧ (pfLine lines end_idx st i).current_list = none)
    ∧ (∀ ck xs,
        indentOf (lines.getD i "") ≠ 0 →
        indentOf (lines.getD i "") ≠ st.base_indent →
        ¬(st.cdi ≠ CDI.cnone ∧ indentOf (lines.getD i "") > st.base_indent + 2) →
        st.current_key = some ck → ck ≠ "" →
        indentOf (lines.getD i "") > st.base_indent →
        dget st.fm ck = some (TopVal.m xs) →
        (pfLine lines end_idx st i).fm
            = dset st.fm ck (TopVal.m
                (dset xs (pyStrip (pySplitOnce (pyStrip (lines.getD i "")) ':').1) (Nested.l [])))
          ∧ (pfLine lines end_idx st i).current_list
            = some (pyStrip (pySplitOnce (pyStrip (lines.getD i "")) ':').1)) := by
  have e1 : ((pyStrip (lines.getD i "")).data.isEmpty
      || pyStartsWith (pyStrip (lines.getD i "")) "#") = false := by
    rw [h1, h2]
    rfl
  have e6 : (!(pyStrip (pySplitOnce (pyStrip (lines.getD i "")) ':').2).data.isEmpty)
      = false := by
    rw [h6]
    rfl
  constructor
  · intro htop
    have etop : (indentOf (lines.getD i "") == 0
        || indentOf (lines.getD i "") == st.base_indent) = true := by
      rcases htop with h | h
      · rw [h]
        rfl
      · rw [h]
        simp
    simp only [pfLine, e1, h3, h4, etop, e6, Bool.false_eq_true, if_false, if_true]
    simp
  · intro ck xs hne0 hneb hcd hck hckne hgt hget
    have e0 : (indentOf (lines.getD i "") == 0) = false := beq_eq_false_iff_ne.mpr hne0
    have eb : (indentOf (lines.getD i "") == st.base_indent) = false :=
      beq_eq_false_iff_ne.mpr hneb
    have etop : (indentOf (lines.getD i "") == 0
        || indentOf (lines.getD i "") == st.base_indent) = false := by
      rw [e0, eb]
      rfl
    have ecd : (st.cdi ≠ CDI.cnone
        && indentOf (lines.getD i "") > st.base_indent + 2) = false := by
      rcases not_and_or.mp hcd with h | h
      · have hd : decide (st.cdi ≠ CDI.cnone) = false := decide_eq_false h
        rw [hd]
        rfl
      · have hd : decide (indentOf (lines.getD i "") > st.base_indent + 2) = false :=
          decide_eq_false h
        rw [hd, Bool.and_false]
    have hckd : ck.data.isEmpty = false := by
      cases hcz : ck.data with
      | nil =>
        exfalso
        apply hckne
        cases ck
        simp at hcz
        subst hcz
        rfl
      | cons c cs => rfl
    have htru : pyTruthyStrOpt (some ck) = true := by
      simp [pyTruthyStrOpt, hckd]
    have etr : (pyTruthyStrOpt st.current_key
        && decide (indentOf (lines.getD i "") > st.base_indent)) = true := by
      rw [hck, htru, decide_eq_true hgt]
      rfl
    simp only [pfLine, e1, h3, h4, etop, ecd, etr, hck, e6, hget,
      Bool.false_eq_true, if_false, if_true]
    simp only [List.getD_eq_getElem?_getD] at hgt
    simp [htru, hgt]


/-- Document for the top-level conjunct of the C5 witness. -/
def c5Lines : List String := ["---", "foo:", "  - bar", "---"]

/-- State for the nested conjunct of the C5 witness. -/
def c5St : PFState := ⟨[("a", TopVal.m [])], some "a", none, CDI.cnone, 0⟩

/-- Witness for `c5_amended_theorem` at concrete inputs: line `foo:` at the top
level opens a map; line `  b:` nested under `a` opens a list. -/
theorem c5_witness :
    ((pfLine c5Lines 3 ⟨[], none, none, CDI.cnone, 0⟩ 1).fm
        = dset [] (pyStrip (pySplitOnce (pyStrip (c5Lines.getD 1 "")) ':').1) (TopVal.m [])
      ∧ (pfLine c5Lines 3 ⟨[], none, none, CDI.cnone, 0⟩ 1).current_list = none)
    ∧ ((pfLine ["  b:"] 1 c5St 0).fm
        = dset c5St.fm "a" (TopVal.m
            (dset [] (pyStrip (pySplitOnce (pyStrip (["  b:"].getD 0 "")) ':').1) (Nested.l [])))
      ∧ (pfLine ["  b:"] 1 c5St 0).current_list
        = some (pyStrip (pySplitOnce (pyStrip (["  b:"].getD 0 "")) ':').1)) :=
  ⟨(c5_amended_theorem c5Lines 3 ⟨[], none, none, CDI.cnone, 0⟩ 1
      (by decide) (by decide) (by decide) (by decide) (by decide)).1
    (Or.inl (by decide)),
   ( c5_amended_theorem ["  b:"] 1 c5St 0
      (by decide) (by decide) (by decide) (by decide) (by decide)).2 "a" []
    (by decide) (by decide) (by decide) rfl (by decide) (by decide) rfl⟩

/-! ## Claim C6 -/

/-- Claim C6: a requirement reference to an existing, readable target document
that declares a different id — under both strategies: the frontmatter parse
does not declare the referenced id, and neither does the inline-YAML fallback —
always fails resolution with the ID mismatch error, for every version
annotation and source file. (When the target file does not exist there is no
declared id at all; resolution then also fails, with the missing-file error,
as `c10_theorem` and the resolver definition show.) -/
theorem c6_theorem (req_id req_path0 : String) (fs : FS) (w : String)
    (v : Option Nat) (src content : String)
    (hext : reqExtensionCheck (pyBasename (reqLookupPath req_path0)) = true)
    (hex2 : fs.fexists (osPathJoin w (reqLookupPath req_path0)) = true)
    (hrd : fs.fread (osPathJoin w (reqLookupPath req_path0)) = Except.ok content)
    (hid1 : fmDeclaresId (parse_frontmatter content).1 req_id = false)
    (hid2 : fmDeclaresId (parse_inline_yaml_for_requirement content req_id) req_id = false) :
    validate_requirement_reference req_id req_path0 fs w v src
      = ⟨false, some ("Requirement file " ++ stripLeadSlash req_path0
          ++ " does not contain ID \x27" ++ req_id ++ "\x27"), []⟩ := by
  simp only [validate_requirement_reference, hext, Bool.not_true, Bool.false_eq_true,
    if_false, hex2, hrd, hid1, hid2, Bool.not_false, if_true]

/-- Target document declaring id `R1`, used to witness a reference under id `R2`. -/
def c6FS : FS := ⟨fun _ => true, fun _ => .ok "---\nid: R1\n---\nx"⟩

/-- Witness for `c6_theorem`: the path is correct (file exists, extension ok)
but the document declares `R1`, so the `R2` reference fails with the mismatch. -/
theorem c6_witness :
    validate_requirement_reference "R2" "r.md" c6FS "w" none "s.md"
      = ⟨false, some ("Requirement file " ++ stripLeadSlash "r.md"
          ++ " does not contain ID \x27" ++ "R2" ++ "\x27"), []⟩ :=
  c6_theorem "R2" "r.md" c6FS "w" none "s.md" "---\nid: R1\n---\nx"
    (by decide) rfl rfl (by decide) (by decide)

/-! ## Claim C7 -/

/-- Claim C7: a parameter reference whose target carries a `#anchor` differing
from the link text fails with the text/anchor mismatch error for every
filesystem — in particular even when the target file exists and contains the
anchor as a quoted literal — so the check precedes and is independent of any
filesystem access. -/
theorem c7_theorem (param_name param_path : String) (fs : FS) (w : String)
    (hc : pyContainsChar param_path '#' = true)
    (hne : (pySplitOnce param_path '#').2 ≠ param_name) :
    validate_parameter_reference param_name param_path fs w
      = (false, some ("Parameter link text \x27" ++ param_name
          ++ "\x27 does not match anchor \x27" ++ (pySplitOnce param_path '#').2
          ++ "\x27 in " ++ param_path)) := by
  simp only [validate_parameter_reference, hc, if_true]
  rw [if_pos (Ne.symm hne)]

/-- A filesystem on which every file exists and contains `"max"` quoted — the
anchor of the witness reference. -/
def c7FS : FS := ⟨fun _ => true, fun _ => .ok "\x22max\x22"⟩

/-- Witness for `c7_theorem`: link text `brake` with anchor `max`; the target
exists and even defines `max`, yet the mismatch error is returned. -/
theorem c7_witness :
    validate_parameter_reference "brake" "/p/b.bzl#max" c7FS "w"
      = (false, some ("Parameter link text \x27" ++ "brake"
          ++ "\x27 does not match anchor \x27" ++ (pySplitOnce "/p/b.bzl#max" '#').2
          ++ "\x27 in " ++ "/p/b.bzl#max")) :=
  c7_theorem "brake" "/p/b.bzl#max" c7FS "w" (by decide) (by decide)

/-! ## Claim C8 -/

theorem lexLe_total : ∀ as bs : List Char, lexLe as bs = true ∨ lexLe bs as = true
  | [], _ => Or.inl rfl
  | _ :: _, [] => Or.inr rfl
  | a :: as, b :: bs => by
    simp only [lexLe]
    by_cases hab : a.toNat < b.toNat
    · simp [hab]
    · by_cases hba : b.toNat < a.toNat
      · simp [hab, hba]
      · simp only [hab, hba, if_false]
        exact lexLe_total as bs

theorem lexLe_trans : ∀ as bs cs : List Char,
    lexLe as bs = true → lexLe bs cs = true → lexLe as cs = true
  | [], _, _, _, _ => rfl
  | _ :: _, [], _, h1, _ => by simp [lexLe] at h1
  | _ :: _, _ :: _, [], _, h2 => by simp [lexLe] at h2
  | a :: as, b :: bs, c :: cs, h1, h2 => by
    simp only [lexLe] at h1 h2 ⊢
    by_cases hab : a.toNat < b.toNat
    · by_cases hbc : b.toNat < c.toNat
      · simp [show a.toNat < c.toNat from by omega]
      · by_cases hcb : c.toNat < b.toNat
        · simp [hbc, hcb] at h2
        · simp [show a.toNat < c.toNat from by omega]
    · by_cases hba : b.toNat < a.toNat
      · simp [hab, hba] at h1
      · by_cases hbc : b.toNat < c.toNat
        · simp [show a.toNat < c.toNat from by omega]
        · by_cases hcb : c.toNat < b.toNat
          · simp [hbc, hcb] at h2
          · have hac : ¬ a.toNat < c.toNat := by omega
            have hca : ¬ c.toNat < a.toNat := by omega
            simp only [hab, hba, if_false] at h1
            simp only [hbc, hcb, if_false] at h2
            simp only [hac, hca, if_false]
            exact lexLe_trans as bs cs h1 h2

instance : IsTotal String pyLe := ⟨fun a b => lexLe_total a.data b.data⟩

instance : IsTrans String pyLe := ⟨fun a b c => lexLe_trans a.data b.data c.data⟩

theorem ne_pySorted_of_not_sorted (S : List String) (h : ¬ List.Sorted pyLe S) :
    S ≠ pySorted S := by
  intro he
  apply h
  rw [he]
  exact List.sorted_insertionSort pyLe S

/-- The sortable projection of the declared list under one reference kind, as
the source computes it before the sort check. -/
def declaredSortables (refs : List (String × Nested)) (kind : String) : List String :=
  if kind == "requirements" then sortableReqs (refItemsOf (dget refs kind))
  else sortableScalars (refItemsOf (dget refs kind))

/-- Is this error the ordering error for the given kind? -/
def kindOrdErr (kind : String) : VErr → Bool
  | .notSorted _ k _ _ => k == kind
  | _ => false

theorem sortKindErr_of_unsorted {f k : String} {refs : List (String × Nested)}
    (hS : sortableScalars (refItemsOf (dget refs k)) ≠ [])
    (hne : sortableScalars (refItemsOf (dget refs k))
      ≠ pySorted (sortableScalars (refItemsOf (dget refs k)))) :
    sortKindErr f refs k
      = [VErr.notSorted f k (sortableScalars (refItemsOf (dget refs k)))
          (pySorted (sortableScalars (refItemsOf (dget refs k))))] := by
  have hitems : (refItemsOf (dget refs k)).isEmpty = false := by
    cases hi : refItemsOf (dget refs k) with
    | nil =>
      exfalso
      apply hS
      rw [hi]
      rfl
    | cons a l => rfl
  simp only [sortKindErr, hitems, Bool.false_eq_true, if_false, if_pos hne]

theorem filter_kindOrd_sortKindErr_ne {f k kind : String} {refs : List (String × Nested)}
    (h : k ≠ kind) : (sortKindErr f refs k).filter (kindOrdErr kind) = [] := by
  rw [List.filter_eq_nil_iff]
  intro a ha
  obtain ⟨c, e, rfl⟩ := ctor_mem_sortKindErr ha
  simp [kindOrdErr, h]

theorem filter_kindOrd_usedSection {kind f : String} {fm : Frontmatter}
    {prefs : List (String × String)} {rrefs : List (String × String × Option Nat)}
    {trefs : List (String × String)} :
    (usedSection f fm prefs rrefs trefs).filter (kindOrdErr kind) = [] := by
  rw [List.filter_eq_nil_iff]
  intro a ha
  rcases mem_usedSection ha with ⟨v, rfl⟩ | ⟨v, rfl⟩ | ⟨v, rfl⟩ <;> simp [kindOrdErr]

theorem filter_kindOrd_declSection {kind f : String} {fm : Frontmatter}
    {prefs : List (String × String)} {rrefs : List (String × String × Option Nat)}
    {trefs : List (String × String)} :
    (declSection f fm prefs rrefs trefs).filter (kindOrdErr kind) = [] := by
  rw [List.filter_eq_nil_iff]
  intro a ha
  rcases mem_declSection ha with ⟨v, rfl⟩ | ⟨v, rfl⟩ | ⟨v, rfl⟩ <;> simp [kindOrdErr]

theorem filter_kindOrd_resSection {kind f : String} {fs : FS} {w : String}
    {prefs : List (String × String)} {rrefs : List (String × String × Option Nat)}
    {trefs : List (String × String)} :
    (resSection f fs w prefs rrefs trefs).filter (kindOrdErr kind) = [] := by
  rw [List.filter_eq_nil_iff]
  intro a ha
  obtain ⟨m, rfl⟩ := mem_resSection ha
  simp [kindOrdErr]

theorem filter_kindOrd_reqItemErrs {kind f : String} {items : List Item} :
    (reqItemErrs f items).filter (kindOrdErr kind) = [] := by
  rw [List.filter_eq_nil_iff]
  intro a ha
  rcases ctor_mem_reqItemErrs ha with h | h | h <;>
    (cases a <;> simp only [ctorIdx] at h <;>
      first
      | exact absurd h (by decide)
      | simp [kindOrdErr])

theorem filter_kindOrd_reqSection_ne {f kind : String} {refs : List (String × Nested)}
    (h : kind ≠ "requirements") :
    (reqSection f refs).filter (kindOrdErr kind) = [] := by
  rw [List.filter_eq_nil_iff]
  intro a ha
  rcases mem_reqSection ha with hc | hc | hc | hc
  · cases a <;> simp only [ctorIdx] at hc <;>
      first
      | exact absurd hc (by decide)
      | simp [kindOrdErr]
  · cases a <;> simp only [ctorIdx] at hc <;>
      first
      | exact absurd hc (by decide)
      | simp [kindOrdErr]
  · cases a <;> simp only [ctorIdx] at hc <;>
      first
      | exact absurd hc (by decide)
      | simp [kindOrdErr]
  · subst hc
    simp only [kindOrdErr]
    simp only [beq_iff_eq]
    exact fun he => h he.symm

theorem filter_kindOrd_reqSection_req {f : String} {refs : List (String × Nested)}
    (hS : sortableReqs (refItemsOf (dget refs "requirements")) ≠ [])
    (hne : sortableReqs (refItemsOf (dget refs "requirements"))
      ≠ pySorted (sortableReqs (refItemsOf (dget refs "requirements")))) :
    (reqSection f refs).filter (kindOrdErr "requirements")
      = [VErr.notSorted f "requirements"
          (sortableReqs (refItemsOf (dget refs "requirements")))
          (pySorted (sortableReqs (refItemsOf (dget refs "requirements"))))] := by
  have hitems : (refItemsOf (dget refs "requirements")).isEmpty = false := by
    cases hi : refItemsOf (dget refs "requirements") with
    | nil =>
      exfalso
      apply hS
      rw [hi]
      rfl
    | cons a l => rfl
  simp only [reqSection, hitems, Bool.false_eq_true, if_false, if_pos hne,
    List.filter_append, filter_kindOrd_reqItemErrs]
  simp [kindOrdErr]

/-- Claim C8: for a document whose metadata parses truthy, and any reference
kind among `parameters`, `tests`, `standards`, `requirements`, if the declared
list's sortable projection is non-empty and not ascending, the validator emits
exactly one ordering error for that kind — the filtered error list is exactly
the singleton carrying both the current order and its ascending sort. -/
theorem c8_theorem (extract : Extractor) (fs : FS) (file w content : String)
    (fm : Frontmatter) (prefs : List (String × String))
    (rrefs : List (String × String × Option Nat)) (trefs : List (String × String))
    (kind : String)
    (hread : fs.fread file = Except.ok content)
    (hfm : (parse_frontmatter content).1 = some fm)
    (hne : fm ≠ [])
    (hex : extract (parse_frontmatter content).2 = (prefs, rrefs, trefs))
    (hkind : kind = "parameters" ∨ kind = "tests" ∨ kind = "standards"
      ∨ kind = "requirements")
    (hS : declaredSortables (getRefs fm) kind ≠ [])
    (hns : ¬ List.Sorted pyLe (declaredSortables (getRefs fm) kind)) :
    (validate_requirement_file extract fs file w).filter (kindOrdErr kind)
      = [VErr.notSorted file kind (declaredSortables (getRefs fm) kind)
          (pySorted (declaredSortables (getRefs fm) kind))] := by
  have hval := validate_eq_checks extract fs file w content fm prefs rrefs trefs
    hread hfm hne hex
  have hneq := ne_pySorted_of_not_sorted _ hns
  rw [hval]
  simp only [frontmatter_checks, sortSection, List.append_assoc, List.filter_append,
    filter_kindOrd_usedSection, filter_kindOrd_declSection, filter_kindOrd_resSection]
  rcases hkind with rfl | rfl | rfl | rfl
  · have hds : declaredSortables (getRefs fm) "parameters"
        = sortableScalars (refItemsOf (dget (getRefs fm) "parameters")) := by
      simp [declaredSortables]
    rw [hds] at hS hneq
    rw [sortKindErr_of_unsorted hS hneq,
      filter_kindOrd_sortKindErr_ne (by decide),
      filter_kindOrd_sortKindErr_ne (by decide),
      filter_kindOrd_reqSection_ne (by decide)]
    simp [kindOrdErr, hds]
  · have hds : declaredSortables (getRefs fm) "tests"
        = sortableScalars (refItemsOf (dget (getRefs fm) "tests")) := by
      simp [declaredSortables]
    rw [hds] at hS hneq
    rw [sortKindErr_of_unsorted hS hneq,
      filter_kindOrd_sortKindErr_ne (show "parameters" ≠ "tests" by decide),
      filter_kindOrd_sortKindErr_ne (show "standards" ≠ "tests" by decide),
      filter_kindOrd_reqSection_ne (by decide)]
    simp [kindOrdErr, hds]
  · have hds : declaredSortables (getRefs fm) "standards"
        = sortableScalars (refItemsOf (dget (getRefs fm) "standards")) := by
      simp [declaredSortables]
    rw [hds] at hS hneq
    rw [sortKindErr_of_unsorted hS hneq,
      filter_kindOrd_sortKindErr_ne (show "parameters" ≠ "standards" by decide),
      filter_kindOrd_sortKindErr_ne (show "tests" ≠ "standards" by decide),
      filter_kindOrd_reqSection_ne (by decide)]
    simp [kindOrdErr, hds]
  · have hds : declaredSortables (getRefs fm) "requirements"
        = sortableReqs (refItemsOf (dget (getRefs fm) "requirements")) := by
      simp [declaredSortables]
    rw [hds] at hS hneq
    rw [filter_kindOrd_reqSection_req hS hneq,
      filter_kindOrd_sortKindErr_ne (show "parameters" ≠ "requirements" by decide),
      filter_kindOrd_sortKindErr_ne (show "tests" ≠ "requirements" by decide),
      filter_kindOrd_sortKindErr_ne (show "standards" ≠ "requirements" by decide)]
    simp [hds]

/-- A document declaring `references.tests: [b, a]`, unsorted. -/
def c8wContent : String := "---\nreferences:\n  tests:\n    - b\n    - a\n---\nx"

/-- The metadata `c8wContent` parses to. -/
def c8wFM : Frontmatter :=
  [("references", TopVal.m [("tests", Nested.l [Item.s "b", Item.s "a"])])]

/-- Filesystem holding only the C8 witness document. -/
def c8wFS : FS := ⟨fun _ => true, fun _ => .ok c8wContent⟩

/-- Witness for `c8_theorem`: the unsorted declared `tests` list `[b, a]`
yields exactly the one ordering error citing `[b, a]` and `[a, b]`. -/
theorem c8_witness :
    (validate_requirement_file emptyExtract c8wFS "f.md" "w").filter (kindOrdErr "tests")
      = [VErr.notSorted "f.md" "tests" (declaredSortables (getRefs c8wFM) "tests")
          (pySorted (declaredSortables (getRefs c8wFM) "tests"))] :=
  c8_theorem emptyExtract c8wFS "f.md" "w" c8wContent c8wFM [] [] [] "tests"
    rfl (by decide) (by decide) rfl (Or.inr (Or.inl rfl)) (by decide) (by decide)

/-! ## Claim C9 -/

/-- Claim C9: the source's filename acceptance test "ends with `.md` or ends
with `.sysreq.md`" coincides with the simpler predicate "ends with `.md`" on
every string — the second recognized extension adds nothing, since every
`.sysreq.md` name already ends in `.md`. -/
theorem c9_theorem (s : String) : reqExtensionCheck s = mdOnlyExtension s := by
  unfold reqExtensionCheck mdOnlyExtension
  cases hmd : pyEndsWith s ".md"
  · cases hsy : pyEndsWith s ".sysreq.md"
    · rfl
    · exfalso
      unfold pyEndsWith at hmd hsy
      have hsplit : (".sysreq.md".data.reverse)
          = ".md".data.reverse ++ ".sysreq".data.reverse := by decide
      rw [hsplit] at hsy
      have h2 := lpre_append _ _ _ hsy
      rw [hmd] at h2
      exact Bool.false_ne_true h2
  · rfl

/-! ## Claim C10 -/

/-- Claim C10: each of the three resolvers is total with the invariant that
the message is `None` exactly when the result is ok, and an exception raised
while reading the target file is converted into a `(False, message)` result
(for the requirement resolver, with no warnings) instead of propagating. -/
theorem c10_theorem (fs : FS) (w : String) :
    (∀ n p, ((validate_parameter_reference n p fs w).2 = none
        ↔ (validate_parameter_reference n p fs w).1 = true))
    ∧ (∀ id p v src, ((validate_requirement_reference id p fs w v src).err = none
        ↔ (validate_requirement_reference id p fs w v src).ok = true))
    ∧ (∀ n l, ((validate_test_reference n l fs w).2 = none
        ↔ (validate_test_reference n l fs w).1 = true))
    ∧ (∀ n p e, pyContainsChar p '#' = false →
        fs.fexists (osPathJoin w (stripLeadSlash p)) = true →
        fs.fread (osPathJoin w (stripLeadSlash p)) = Except.error e →
        validate_parameter_reference n p fs w
          = (false, some ("Error reading " ++ stripLeadSlash p ++ ": " ++ e)))
    ∧ (∀ id p v src e, reqExtensionCheck (pyBasename (reqLookupPath p)) = true →
        fs.fexists (osPathJoin w (reqLookupPath p)) = true →
        fs.fread (osPathJoin w (reqLookupPath p)) = Except.error e →
        validate_requirement_reference id p fs w v src
          = ⟨false, some ("Error reading " ++ stripLeadSlash p ++ ": " ++ e), []⟩)
    ∧ (∀ n l e, pyStartsWith l "//" = true →
        (pySplitAll (strTail (strTail l)) ':').length = 2 →
        (pySplitAll (strTail (strTail l)) ':').getD 1 "" = n →
        fs.fexists (osPathJoin (osPathJoin w
          ((pySplitAll (strTail (strTail l)) ':').getD 0 "")) "BUILD.bazel") = true →
        fs.fread (osPathJoin (osPathJoin w
          ((pySplitAll (strTail (strTail l)) ':').getD 0 "")) "BUILD.bazel")
          = Except.error e →
        validate_test_reference n l fs w
          = (false, some ("Error validating test target " ++ l ++ ": " ++ e))) := by
  refine ⟨?_, ?_, ?_, ?_, ?_, ?_⟩
  · intro n p
    simp only [validate_parameter_reference]
    repeat' split
    all_goals simp
  · intro id p v src
    simp only [validate_requirement_reference]
    repeat' split
    all_goals simp
  · intro n l
    simp only [validate_test_reference]
    repeat' split
    all_goals simp
  · intro n p e hc hex hrd
    simp only [validate_parameter_reference, hc, Bool.false_eq_true, if_false]
    rw [if_neg (fun hne => hne rfl)]
    simp only [hex, Bool.not_true, Bool.false_eq_true, if_false, hrd]
  · intro id p v src e hext hex hrd
    simp only [validate_requirement_reference, hext, Bool.not_true, Bool.false_eq_true,
      if_false, hex, hrd]
  · intro n l e hst hlen hget hex hrd
    simp only [validate_test_reference, hst, Bool.not_true, Bool.false_eq_true, if_false]
    rw [if_neg (fun hne => hne hlen)]
    rw [if_neg (fun hne => hne hget.symm)]
    simp only [hex, if_true, hrd]

/-- A filesystem on which every path exists but every read raises. -/
def c10FS : FS := ⟨fun _ => true, fun _ => .error "boom"⟩

/-- Witness for `c10_theorem`: on a filesystem whose reads raise, each resolver
returns a `(False, message)` result carrying the conversion of the exception. -/
theorem c10_witness :
    validate_parameter_reference "a" "a.bzl" c10FS "w"
        = (false, some ("Error reading " ++ stripLeadSlash "a.bzl" ++ ": " ++ "boom"))
    ∧ validate_requirement_reference "R1" "r.md" c10FS "w" none "s.md"
        = ⟨false, some ("Error reading " ++ stripLeadSlash "r.md" ++ ": " ++ "boom"), []⟩
    ∧ validate_test_reference "t" "//p:t" c10FS "w"
        = (false, some ("Error validating test target " ++ "//p:t" ++ ": " ++ "boom")) :=
  ⟨(c10_theorem c10FS "w").2.2.2.1 "a" "a.bzl" "boom" (by decide) rfl rfl,
   (c10_theorem c10FS "w").2.2.2.2.1 "R1" "r.md" none "s.md" "boom" (by decide) rfl rfl,
   (c10_theorem c10FS "w").2.2.2.2.2 "t" "//p:t" "boom" (by decide) (by decide)
     (by decide) rfl rfl⟩
